import Mathlib

/-
Verification of the AceReserve reservation-validation and pricing core.

Shallow embedding of:
  src/services/pricing_service.py      (PricingService.calculate_price, calculate_earned_points)
  src/services/loyalty_service.py      (LoyaltyService._update_loyalty_level, change_loyalty_points)
  src/services/reservation_service.py  (ReservationService: _validate_court_availability,
                                        _validate_coach_availability, _validate_lighting_requirements,
                                        _validate_service, process_reservation_creation,
                                        delete_reservation, modify_reservation)
  src/services/validation_helpers.py   (ValidationHelpers.validate_operating_hours)
  src/routers/loyalty.py               (adjust_loyalty_points endpoint)
  src/models/*.py                      (Court, User, LoyaltyAccount, Reservation, schemas)

Conventions of the embedding:
  - datetimes are absolute minutes (an integer); the calendar date of an
    instant t is t.ediv 1440 and its time-of-day in minutes is t.emod 1440,
    matching Python datetime .date() / .time() for a fixed timezone;
  - currency amounts (Python Decimal) are rationals; Decimal arithmetic in
    calculate_price is exact on the validated domain (duration a multiple
    of 30 and two-decimal rates), where it coincides with rational
    arithmetic, and quantize(0.01, ROUND_HALF_UP) is roundHalfUp2 below;
  - the SQL persistence layer is a DB record of lists; a SQLAlchemy query
    with .first() is a List.find? / List.any over the corresponding list;
  - a Python function that raises domain exceptions returns Except Err;
    stateful operations return the committed database paired with the
    outcome: when the operation raises before commit the transaction is
    rolled back and the committed database is the input one.
-/

namespace AceReserve

inductive LoyaltyLevel where
  | beginner
  | silver
  | gold
  | platinum
deriving DecidableEq

inductive Role where
  | guest
  | user
  | coach
  | admin
deriving DecidableEq

inductive ReservationStatus where
  | pending
  | confirmed
  | cancelled
  | completed
deriving DecidableEq

/-- Error kinds raised by the core (src/core/exceptions.py), plus
`permissionError` standing for Python's builtin PermissionError, which is
not an AceReserve exception class but is raised by modify_reservation. -/
inductive Err where
  | courtNotFound
  | startTime
  | doubleCourtBooking
  | doubleCoachBooking
  | serviceNotFound
  | reservationNotFound
  | forbiddenAction
  | lightingAvailability
  | lightingTime
  | clubNotOpen
  | clubClosed
  | loyaltyAccountNotFound
  | permissionError
deriving DecidableEq

/-- Court (src/models/court.py CourtBase), fields the core reads. -/
structure Court where
  number : Int
  hasLighting : Bool
  pricePerHour : ℚ
  available : Bool
deriving DecidableEq

/-- LoyaltyAccount (src/models/loyalty.py). -/
structure LoyaltyAccount where
  userId : Int
  points : Int
  level : LoyaltyLevel
deriving DecidableEq

/-- User (src/models/user.py), with its optional loyalty relationship. -/
structure User where
  id : Int
  role : Role
  loyalty : Option LoyaltyAccount
deriving DecidableEq

/-- Service (src/models/service.py), fields the validators read. -/
structure Service where
  id : Int
  requiresCoach : Bool
  coachId : Option Int
deriving DecidableEq

/-- ReservationCreate (src/models/reservation.py ReservationBase). -/
structure ReservationCreate where
  courtNumber : Int
  startTime : Int
  durationMinutes : Nat
  serviceId : Option Int := none
  rentRacket : Bool := false
  rentBalls : Bool := false
  wantsLighting : Bool := false
  notes : Option String := none
deriving DecidableEq

/-- ReservationUpdate (src/models/reservation.py): all-optional patch. -/
structure ReservationUpdate where
  courtNumber : Option Int := none
  startTime : Option Int := none
  durationMinutes : Option Nat := none
  rentRacket : Option Bool := none
  rentBalls : Option Bool := none
  wantsLighting : Option Bool := none
  notes : Option String := none
deriving DecidableEq

/-- Reservation row (src/models/reservation.py Reservation). -/
structure Reservation where
  id : Int
  courtNumber : Int
  startTime : Int
  endTime : Int
  durationMinutes : Nat
  serviceId : Option Int
  rentRacket : Bool
  rentBalls : Bool
  wantsLighting : Bool
  notes : Option String
  status : ReservationStatus
  totalPrice : ℚ
  userId : Int
deriving DecidableEq

/-- The relational store the services query and commit to. -/
structure DB where
  courts : List Court
  services : List Service
  reservations : List Reservation
  loyaltyAccounts : List LoyaltyAccount
  nextId : Int
deriving DecidableEq

/-- LoyaltyAdjust payload (src/models/loyalty.py). -/
structure LoyaltyAdjust where
  userId : Int
  pointsChange : Int
  reason : Option String := none
deriving DecidableEq

/-! Pricing (src/services/pricing_service.py). -/

/-- DISCOUNTS lookup table of pricing_service.py. -/
def discount_for_level (l : LoyaltyLevel) : ℚ :=
  match l with
  | .beginner => 0
  | .silver => 5 / 100
  | .gold => 10 / 100
  | .platinum => 15 / 100

/-- Decimal.quantize(Decimal 0.01, rounding=ROUND_HALF_UP): round to two
decimal places with ties going away from zero. -/
def roundHalfUp2 (q : ℚ) : ℚ :=
  if q < 0 then -((Int.floor (-q * 100 + 1 / 2) : ℚ) / 100)
  else (Int.floor (q * 100 + 1 / 2) : ℚ) / 100

/-- PricingService.calculate_price, step for step: hours, base price,
extras accumulated in source order (racket, balls, lighting with the
EXTRAS_PRICES table 5.00 / 3.00 / 10.00), loyalty level defaulting to
beginner, discount, final rounding. -/
def calculate_price (court : Court) (data : ReservationCreate) (user : User) : ℚ :=
  let hours : ℚ := (data.durationMinutes : ℚ) / 60
  let basePrice := court.pricePerHour * hours
  let extras0 : ℚ := 0
  let extras1 := if data.rentRacket then extras0 + 5 else extras0
  let extras2 := if data.rentBalls then extras1 + 3 else extras1
  let extrasCost := if data.wantsLighting then extras2 + 10 else extras2
  let totalBeforeDiscount := basePrice + extrasCost
  let level := match user.loyalty with
    | some account => account.level
    | none => LoyaltyLevel.beginner
  let discountAmount := totalBeforeDiscount * discount_for_level level
  let finalPrice := totalBeforeDiscount - discountAmount
  roundHalfUp2 finalPrice

/-- PricingService.calculate_earned_points: int((duration / 60) * 10).
On the validated domain (duration a multiple of 30) the float expression
is exact and truncation of a non-negative value is floor division. -/
def calculate_earned_points (durationMinutes : Nat) : Int :=
  ((durationMinutes * 10) / 60 : Nat)

/-- Spec-side price, written from the specification text (section 4.2 and
claim C1): court hourly rate times duration/60 plus extras, minus the tier
discount, rounded half-up to two decimals. Compared with calculate_price. -/
def price_spec (court : Court) (data : ReservationCreate) (user : User) : ℚ :=
  let subtotal :=
    court.pricePerHour * (data.durationMinutes : ℚ) / 60
      + (if data.rentRacket then 5 else 0)
      + (if data.rentBalls then 3 else 0)
      + (if data.wantsLighting then 10 else 0)
  let tier := match user.loyalty with
    | some account => account.level
    | none => LoyaltyLevel.beginner
  roundHalfUp2 (subtotal - subtotal * discount_for_level tier)

/-! Loyalty (src/services/loyalty_service.py). -/

/-- LoyaltyService._update_loyalty_level: add the delta, clamp the balance
at zero, then recompute the level by the fixed thresholds 300/150/50. -/
def update_loyalty_level (account : LoyaltyAccount) (pointsChange : Int) : LoyaltyAccount :=
  let p0 := account.points + pointsChange
  let p := max p0 0
  let lvl :=
    if p ≥ 300 then LoyaltyLevel.platinum
    else if p ≥ 150 then LoyaltyLevel.gold
    else if p ≥ 50 then LoyaltyLevel.silver
    else LoyaltyLevel.beginner
  { account with points := p, level := lvl }

/-- Spec-side tier function (section 4.1 thresholds), used to state that
the stored level always matches the balance. -/
def tier_for (points : Int) : LoyaltyLevel :=
  if points ≥ 300 then .platinum
  else if points ≥ 150 then .gold
  else if points ≥ 50 then .silver
  else .beginner

/-- LoyaltyService.change_loyalty_points: look the account up by the
user's id, fail with LoyaltyAccountNotFoundError when absent, otherwise
apply _update_loyalty_level and commit. -/
def change_loyalty_points (db : DB) (user : User) (adjustment : Int) :
    DB × Except Err LoyaltyAccount :=
  match db.loyaltyAccounts.find? (fun a => a.userId == user.id) with
  | none => (db, .error .loyaltyAccountNotFound)
  | some account =>
      let updated := update_loyalty_level account adjustment
      let db1 := { db with
        loyaltyAccounts := db.loyaltyAccounts.map
          (fun a => if a.userId == user.id then updated else a) }
      (db1, .ok updated)

/-- POST /loyalty/adjust handler (src/routers/loyalty.py
adjust_loyalty_points): the admin caller is current_user; the handler
calls change_loyalty_points(current_user, adjustment.points_change),
passing the caller, not the user named by adjustment.user_id. -/
def adjust_loyalty_points (db : DB) (currentUser : User) (adjustment : LoyaltyAdjust) :
    DB × Except Err LoyaltyAccount :=
  change_loyalty_points db currentUser adjustment.pointsChange

/-! Validators (src/services/reservation_service.py, validation_helpers.py). -/

/-- Conflict predicate of the SQL statement in _validate_court_availability:
same court, status not CANCELLED, existing.start_time < requested end,
existing.end_time > requested start, and (when given) id not the excluded one. -/
def court_conflict (courtNumber s e : Int) (excludeId : Option Int) (r : Reservation) : Bool :=
  r.courtNumber == courtNumber
    && !(r.status == ReservationStatus.cancelled)
    && decide (r.startTime < e)
    && decide (r.endTime > s)
    && (match excludeId with
        | none => true
        | some i => !(r.id == i))

/-- ReservationService._validate_court_availability (identical logic in
ValidationHelpers.validate_court_availability): first rejects a start
before the current instant, then scans for a conflicting reservation. -/
def validate_court_availability (now : Int) (reservations : List Reservation)
    (courtNumber s e : Int) (excludeId : Option Int := none) : Except Err Unit :=
  if s < now then .error .startTime
  else if reservations.any (court_conflict courtNumber s e excludeId) then
    .error .doubleCourtBooking
  else .ok ()

/-- Conflict predicate of the join in _validate_coach_availability:
the reservation's service belongs to the coach, the reservation is not
cancelled, and the time windows overlap. -/
def coach_conflict (services : List Service) (coachId s e : Int) (r : Reservation) : Bool :=
  services.any (fun sv =>
    r.serviceId == some sv.id
      && sv.coachId == some coachId
      && !(r.status == ReservationStatus.cancelled)
      && decide (r.startTime < e)
      && decide (r.endTime > s))

/-- ReservationService._validate_coach_availability. -/
def validate_coach_availability (db : DB) (coachId : Option Int) (s e : Int) :
    Except Err Unit :=
  match coachId with
  | none => .ok ()
  | some cid =>
      if db.reservations.any (coach_conflict db.services cid s e) then
        .error .doubleCoachBooking
      else .ok ()

/-- Hour component of an instant, as Python start_time.hour (Int `/` and
`%` are Euclidean division, matching Python's floor semantics for the
positive constants used here). -/
def hourOf (t : Int) : Int :=
  (t % 1440) / 60

/-- ReservationService._validate_lighting_requirements with
LIGHTING_START_HOUR = 19. -/
def validate_lighting_requirements (court : Court) (startTime : Int)
    (wantsLighting : Bool) : Except Err Unit :=
  if !wantsLighting then .ok ()
  else if !court.hasLighting then .error .lightingAvailability
  else if hourOf startTime < 19 then .error .lightingTime
  else .ok ()

/-- ReservationService._validate_service. Python's `if not service_id`
also treats the id 0 as absent. -/
def validate_service (db : DB) (serviceId : Option Int) (s e : Int) :
    Except Err (Option Service) :=
  match serviceId with
  | none => .ok none
  | some sid =>
      if sid == 0 then .ok none
      else
        match db.services.find? (fun sv => sv.id == sid) with
        | none => .error .serviceNotFound
        | some sv =>
            match (if sv.requiresCoach then
                     validate_coach_availability db sv.coachId s e
                   else .ok ()) with
            | .error err => .error err
            | .ok _ => .ok (some sv)

/-- Club opening time-of-day of validation_helpers.py, in minutes (08:00). -/
def CLUB_OPEN_TIME : Int := 480

/-- Club closing time-of-day of validation_helpers.py, in minutes (22:00). -/
def CLUB_CLOSE_TIME : Int := 1320

/-- ValidationHelpers.validate_operating_hours: compares the time-of-day
components and, last, rejects intervals whose dates differ. The check on
the end time exempts an end-of-day time of exactly 00:00. -/
def validate_operating_hours (startTime endTime : Int) : Except Err Unit :=
  let s := startTime % 1440
  let e := endTime % 1440
  if s < CLUB_OPEN_TIME then .error .clubNotOpen
  else if s ≥ CLUB_CLOSE_TIME then .error .clubClosed
  else if e > CLUB_CLOSE_TIME ∧ e ≠ 0 then .error .clubClosed
  else if startTime / 1440 ≠ endTime / 1440 then .error .clubClosed
  else .ok ()

/-! Reservation lifecycle (src/services/reservation_service.py). -/

/-- Court lookup by number: select(Court).where(Court.number == n).first(). -/
def lookup_court (db : DB) (n : Int) : Option Court :=
  db.courts.find? (fun c => c.number == n)

/-- Reservation lookup by primary key: session.get(Reservation, rid). -/
def lookup_reservation (db : DB) (rid : Int) : Option Reservation :=
  db.reservations.find? (fun r => r.id == rid)

/-- ReservationService._update_user_loyalty: silently skip when the user
has no loyalty account, otherwise award the earned points through
update_loyalty_level. -/
def update_user_loyalty (db : DB) (user : User) (durationMinutes : Nat) : DB :=
  match user.loyalty with
  | none => db
  | some account =>
      let updated := update_loyalty_level account (calculate_earned_points durationMinutes)
      { db with
        loyaltyAccounts := db.loyaltyAccounts.map
          (fun a => if a.userId == user.id then updated else a) }

/-- ReservationService._calculate_end_time. -/
def calculate_end_time (startTime : Int) (durationMinutes : Nat) : Int :=
  startTime + durationMinutes

/-- ReservationService.process_reservation_creation, in source order:
end time, court lookup, court availability (which also checks the start
against the current instant), lighting, service, price, then persistence
of the new CONFIRMED row and the loyalty award, committed together.
The Reservation constructor call omits wants_lighting, so the persisted
row takes the model default False. -/
def process_reservation_creation (now : Int) (db : DB) (user : User)
    (data : ReservationCreate) : DB × Except Err Reservation :=
  let endTime := calculate_end_time data.startTime data.durationMinutes
  match lookup_court db data.courtNumber with
  | none => (db, .error .courtNotFound)
  | some court =>
    match validate_court_availability now db.reservations data.courtNumber
        data.startTime endTime none with
    | .error err => (db, .error err)
    | .ok _ =>
      match validate_lighting_requirements court data.startTime data.wantsLighting with
      | .error err => (db, .error err)
      | .ok _ =>
        match validate_service db data.serviceId data.startTime endTime with
        | .error err => (db, .error err)
        | .ok _ =>
          let totalPrice := calculate_price court data user
          let reservation : Reservation :=
            { id := db.nextId
              courtNumber := data.courtNumber
              userId := user.id
              startTime := data.startTime
              endTime := endTime
              durationMinutes := data.durationMinutes
              status := ReservationStatus.confirmed
              totalPrice := totalPrice
              serviceId := data.serviceId
              rentRacket := data.rentRacket
              rentBalls := data.rentBalls
              wantsLighting := false
              notes := data.notes }
          let db1 := { db with
            reservations := db.reservations ++ [reservation]
            nextId := db.nextId + 1 }
          let db2 := update_user_loyalty db1 user data.durationMinutes
          (db2, .ok reservation)

/-- ReservationService.delete_reservation (cancel): find, check
ownership-or-admin, set the status to CANCELLED unconditionally, commit. -/
def delete_reservation (db : DB) (user : User) (reservationId : Int) :
    DB × Except Err Unit :=
  match lookup_reservation db reservationId with
  | none => (db, .error .reservationNotFound)
  | some reservation =>
      if reservation.userId ≠ user.id ∧ user.role ≠ Role.admin then
        (db, .error .forbiddenAction)
      else
        let db1 := { db with
          reservations := db.reservations.map
            (fun r => if r.id == reservationId then
                        { r with status := ReservationStatus.cancelled }
                      else r) }
        (db1, .ok ())

/-- The temp ReservationCreate that modify_reservation rebuilds from the
mutated row to re-price it (notes are not forwarded and default to none). -/
def reservation_to_create (r : Reservation) : ReservationCreate :=
  { courtNumber := r.courtNumber
    startTime := r.startTime
    durationMinutes := r.durationMinutes
    rentRacket := r.rentRacket
    rentBalls := r.rentBalls
    wantsLighting := r.wantsLighting
    serviceId := r.serviceId }

/-- Effective new court number of a modification: the patched value when
present, else the current one (explicit is-not-None check in the source). -/
def effective_court_number (r : Reservation) (upd : ReservationUpdate) : Int :=
  match upd.courtNumber with
  | some n => n
  | none => r.courtNumber

/-- Effective new start of a modification (Python `or` on a datetime,
which is never falsy). -/
def effective_start_time (r : Reservation) (upd : ReservationUpdate) : Int :=
  match upd.startTime with
  | some t => t
  | none => r.startTime

/-- Effective new duration of a modification (Python `or`: a patch value
of 0 is falsy and keeps the old duration). -/
def effective_duration (r : Reservation) (upd : ReservationUpdate) : Nat :=
  match upd.durationMinutes with
  | some d => if d = 0 then r.durationMinutes else d
  | none => r.durationMinutes

/-- The conditional re-validation step of modify_reservation: the court
conflict scan runs only when time or court actually changed, excluding
this reservation's own id. -/
def modify_revalidation (now : Int) (db : DB) (r : Reservation) (rid : Int)
    (upd : ReservationUpdate) : Except Err Unit :=
  let newStartTime := effective_start_time r upd
  let newDuration := effective_duration r upd
  let newCourtNumber := effective_court_number r upd
  let timeChanged := newStartTime ≠ r.startTime ∨ newDuration ≠ r.durationMinutes
  let courtChanged := newCourtNumber ≠ r.courtNumber
  if timeChanged ∨ courtChanged then
    validate_court_availability now db.reservations newCourtNumber newStartTime
      (calculate_end_time newStartTime newDuration) (some rid)
  else .ok ()

/-- The field overlay of modify_reservation: new court/start/end/duration,
then the extras and notes patched where present. Status and owner are
never touched. -/
def apply_update (r : Reservation) (upd : ReservationUpdate) : Reservation :=
  let r1 := { r with
    courtNumber := effective_court_number r upd
    startTime := effective_start_time r upd
    endTime := calculate_end_time (effective_start_time r upd) (effective_duration r upd)
    durationMinutes := effective_duration r upd }
  { r1 with
    rentRacket := match upd.rentRacket with
      | some b => b
      | none => r1.rentRacket
    rentBalls := match upd.rentBalls with
      | some b => b
      | none => r1.rentBalls
    wantsLighting := match upd.wantsLighting with
      | some b => b
      | none => r1.wantsLighting
    notes := match upd.notes with
      | some t => some t
      | none => r1.notes }

/-- ReservationService.modify_reservation: find, permission check —
raising Python's builtin PermissionError, not ForbiddenActionError —,
overlay the patch, re-validate availability only when time or court
changed, resolve the possibly new court, re-price from the mutated row
(through the temp ReservationCreate), commit. -/
def modify_reservation (now : Int) (db : DB) (user : User) (reservationId : Int)
    (upd : ReservationUpdate) : DB × Except Err Reservation :=
  match lookup_reservation db reservationId with
  | none => (db, .error .reservationNotFound)
  | some reservation =>
      if reservation.userId ≠ user.id ∧ user.role ≠ Role.admin then
        (db, .error .permissionError)
      else
        match modify_revalidation now db reservation reservationId upd with
        | .error err => (db, .error err)
        | .ok _ =>
            let r2 := apply_update reservation upd
            match lookup_court db (effective_court_number reservation upd) with
            | none => (db, .error .courtNotFound)
            | some court =>
                let newPrice := calculate_price court (reservation_to_create r2) user
                let r3 := { r2 with totalPrice := newPrice }
                let db1 := { db with
                  reservations := db.reservations.map
                    (fun r => if r.id == reservationId then r3 else r) }
                (db1, .ok r3)

/-! Concrete fixtures used by the example clauses and witnesses. -/

/-- A court with hourly rate 25.00 and lighting. -/
def court25 : Court :=
  { number := 1, hasLighting := true, pricePerHour := 25, available := true }

/-- Request: court 1, one hour, no extras. -/
def ex1Data : ReservationCreate :=
  { courtNumber := 1, startTime := 1140, durationMinutes := 60 }

/-- Request: court 1, two hours, racket, balls and lighting. -/
def ex2Data : ReservationCreate :=
  { courtNumber := 1, startTime := 1140, durationMinutes := 120,
    rentRacket := true, rentBalls := true, wantsLighting := true }

/-- A user with no loyalty account (beginner tier by default). -/
def beginnerUser : User := { id := 1, role := .user, loyalty := none }

/-- A user at the gold tier. -/
def goldUser : User :=
  { id := 2, role := .user, loyalty := some { userId := 2, points := 150, level := .gold } }

/-- A 09:00-10:00 confirmed reservation on court 1 (minutes of day 0). -/
def resNine : Reservation :=
  { id := 1, courtNumber := 1, startTime := 540, endTime := 600,
    durationMinutes := 60, serviceId := none, rentRacket := false,
    rentBalls := false, wantsLighting := false, notes := none,
    status := .confirmed, totalPrice := 25, userId := 1 }

/-- An empty store. -/
def dbEmpty : DB :=
  { courts := [], services := [], reservations := [], loyaltyAccounts := [], nextId := 1 }

/-- A store holding only court 1. -/
def dbCourtOnly : DB := { dbEmpty with courts := [court25] }

/-- A request whose start (minute -600) is before the instant now = 0. -/
def pastData : ReservationCreate :=
  { courtNumber := 1, startTime := -600, durationMinutes := 60 }

/-- A second ordinary user, owner of nothing. -/
def otherUser : User := { id := 2, role := .user, loyalty := none }

/-- An all-empty patch. -/
def updEmpty : ReservationUpdate := {}

/-- A store with court 1 and the reservation resNine owned by user 1. -/
def dbOwned : DB := { dbEmpty with courts := [court25], reservations := [resNine] }

/-- Loyalty account of the admin caller (user 1, 7 points). -/
def adminAccount : LoyaltyAccount := { userId := 1, points := 7, level := .beginner }

/-- Loyalty account of the target user (user 2, 100 points). -/
def targetAccount : LoyaltyAccount := { userId := 2, points := 100, level := .silver }

/-- A store with the two loyalty accounts above. -/
def dbLoyal : DB := { dbEmpty with loyaltyAccounts := [adminAccount, targetAccount] }

/-- The administrator, user 1. -/
def adminUser : User := { id := 1, role := .admin, loyalty := some adminAccount }

/-- An adjustment payload naming user 2. -/
def adjPayload : LoyaltyAdjust := { userId := 2, pointsChange := 100 }

/-- resNine with status Completed. -/
def resCompleted : Reservation := { resNine with status := .completed }

/-- A store holding one Completed reservation, id 1, owned by user 1. -/
def dbCompleted : DB := { dbEmpty with reservations := [resCompleted] }

/-- resNine with status Cancelled. -/
def resCancelledFx : Reservation := { resNine with status := .cancelled }

/-- A store with court 1 and one Cancelled reservation. -/
def dbCancelled : DB :=
  { dbEmpty with courts := [court25], reservations := [resCancelledFx] }

/-- A request for court 1 at 19:00 with lighting. -/
def lightData : ReservationCreate :=
  { courtNumber := 1, startTime := 1140, durationMinutes := 60, wantsLighting := true }

/-- The reservation row that the lightData creation persists: the lighting
flag is dropped while the 10.00 surcharge is in the stored price. -/
def rLight : Reservation :=
  { id := 1, courtNumber := 1, startTime := 1140, endTime := 1200,
    durationMinutes := 60, serviceId := none, rentRacket := false,
    rentBalls := false, wantsLighting := false, notes := none,
    status := .confirmed, totalPrice := 35, userId := 1 }

end AceReserve

namespace AceReserve

/-- The conflict predicate, spelled out as a proposition in the claim's
order: same court, not cancelled, not the excluded id, and the strict
half-open overlap existing.start < requested.end and existing.end >
requested.start. -/
theorem court_conflict_iff (courtNumber s e : Int) (excludeId : Option Int)
    (r : Reservation) :
    court_conflict courtNumber s e excludeId r = true ↔
      r.courtNumber = courtNumber ∧ r.status ≠ .cancelled
        ∧ (∀ i, excludeId = some i → r.id ≠ i)
        ∧ r.startTime < e ∧ r.endTime > s := by
  cases excludeId <;>
    simp [court_conflict, Bool.and_eq_true, beq_iff_eq, Bool.not_eq_true',
      beq_eq_false_iff_ne, decide_eq_true_eq, gt_iff_lt] <;>
    tauto

/-- C2: when the start is not in the past, the court-conflict check raises
DoubleCourtBookingError exactly when some reservation on the same court,
not Cancelled and not the excluded id, satisfies existing.start <
requested.end and existing.end > requested.start. -/
theorem c2_court_conflict_check :
    ∀ (now : Int) (reservations : List Reservation) (courtNumber s e : Int)
      (excludeId : Option Int), ¬ s < now →
      (validate_court_availability now reservations courtNumber s e excludeId
          = .error .doubleCourtBooking
        ↔ ∃ r ∈ reservations, r.courtNumber = courtNumber
            ∧ r.status ≠ .cancelled
            ∧ (∀ i, excludeId = some i → r.id ≠ i)
            ∧ r.startTime < e ∧ r.endTime > s) := by
  intro now rs cn s e excl h
  simp only [validate_court_availability, if_neg h]
  constructor
  · intro hEq
    by_cases hAny : rs.any (court_conflict cn s e excl) = true
    · obtain ⟨r, hr, hp⟩ := List.any_eq_true.mp hAny
      exact ⟨r, hr, (court_conflict_iff cn s e excl r).mp hp⟩
    · simp [hAny] at hEq
  · rintro ⟨r, hr, hc⟩
    have hAny : rs.any (court_conflict cn s e excl) = true :=
      List.any_eq_true.mpr ⟨r, hr, (court_conflict_iff cn s e excl r).mpr hc⟩
    simp [hAny]

/-- Witness for C2: with the 09:00-10:00 reservation on court 1 persisted,
a 09:30-10:30 request conflicts (the theorem applied there) while a
10:00-11:00 request touching only at the endpoint does not. -/
theorem c2_court_conflict_check_witness :
    ¬ (570 : Int) < 0
    ∧ validate_court_availability 0 [resNine] 1 570 630 none
        = .error .doubleCourtBooking
    ∧ validate_court_availability 0 [resNine] 1 600 660 none = .ok () := by
  refine ⟨by decide, ?_, rfl⟩
  refine (c2_court_conflict_check 0 [resNine] 1 570 630 none (by decide)).mpr ?_
  refine ⟨resNine, List.mem_singleton.mpr rfl, rfl, by decide, ?_, by decide, by decide⟩
  intro i hi
  exact Option.noConfusion hi

/-- C4: when any validator of reservation creation fails the raised error
aborts the whole operation and the committed store is the input one: no
reservation row is persisted and no loyalty account is touched. -/
theorem c4_creation_atomic :
    ∀ (now : Int) (db : DB) (user : User) (data : ReservationCreate) (err : Err),
      (process_reservation_creation now db user data).2 = .error err →
      (process_reservation_creation now db user data).1 = db := by
  intro now db user data err
  simp only [process_reservation_creation]
  cases hc : lookup_court db data.courtNumber with
  | none => simp [hc]
  | some court =>
    simp only [hc]
    cases hv : validate_court_availability now db.reservations data.courtNumber
        data.startTime (calculate_end_time data.startTime data.durationMinutes)
        none with
    | error e => simp [hv]
    | ok u1 =>
      simp only [hv]
      cases hl : validate_lighting_requirements court data.startTime
          data.wantsLighting with
      | error e => simp [hl]
      | ok u2 =>
        simp only [hl]
        cases hs : validate_service db data.serviceId data.startTime
            (calculate_end_time data.startTime data.durationMinutes) with
        | error e => simp [hs]
        | ok sv => simp [hs]

/-- Witness for C4: creating against the empty store fails with
CourtNotFoundError and the committed store is unchanged. -/
theorem c4_creation_atomic_witness :
    (process_reservation_creation 0 dbEmpty beginnerUser ex1Data).2
        = .error .courtNotFound
    ∧ (process_reservation_creation 0 dbEmpty beginnerUser ex1Data).1 = dbEmpty :=
  ⟨rfl, c4_creation_atomic 0 dbEmpty beginnerUser ex1Data .courtNotFound rfl⟩

/-- C5 counterexample: a creation request whose start is in the past but
whose court number matches no court fails with CourtNotFoundError, not
with StartTimeError — the court is resolved before the start check runs. -/
theorem c5_counterexample :
    pastData.startTime < (0 : Int)
    ∧ (process_reservation_creation 0 dbEmpty beginnerUser pastData).2
        = .error .courtNotFound
    ∧ Err.courtNotFound ≠ Err.startTime :=
  ⟨by decide, rfl, by decide⟩

/-- C5 amended: for every creation request whose court number resolves to
an existing court, a start strictly before the current instant fails with
StartTimeError regardless of all other fields. -/
theorem c5_past_start :
    ∀ (now : Int) (db : DB) (user : User) (data : ReservationCreate) (c : Court),
      lookup_court db data.courtNumber = some c →
      data.startTime < now →
      (process_reservation_creation now db user data).2 = .error .startTime := by
  intro now db user data c hc hlt
  have hval : validate_court_availability now db.reservations data.courtNumber
      data.startTime (calculate_end_time data.startTime data.durationMinutes) none
      = .error .startTime := by
    simp [validate_court_availability, if_pos hlt]
  simp [process_reservation_creation, hc, hval]

/-- Witness for C5 amended: the past-start request against the store
holding court 1 fails with StartTimeError. -/
theorem c5_past_start_witness :
    (process_reservation_creation 0 dbCourtOnly beginnerUser pastData).2
        = .error .startTime :=
  c5_past_start 0 dbCourtOnly beginnerUser pastData court25 rfl (by decide)

/-- C6, evaluated at the failing input: when a requester neither owns the
reservation nor is an administrator, delete_reservation (cancel) fails
with ForbiddenActionError, but modify_reservation fails with the distinct
builtin PermissionError — contradicting modify_reservation's own
docstring, which promises ForbiddenActionError. No field is changed:
the committed store is the input one. -/
theorem c6_modify_permission_error :
    (modify_reservation 0 dbOwned otherUser 1 updEmpty).2 = .error .permissionError
    ∧ (delete_reservation dbOwned otherUser 1).2 = .error .forbiddenAction
    ∧ Err.permissionError ≠ Err.forbiddenAction
    ∧ (modify_reservation 0 dbOwned otherUser 1 updEmpty).1 = dbOwned :=
  ⟨rfl, rfl, by decide, rfl⟩

/-- C7, evaluated at the failing input: the admin (user 1, account at 7
points) posts an adjustment naming user 2 with delta +100; the handler
adjusts the CALLER's account — the returned record belongs to user 1
with 107 points — while user 2's account stays at 100 points. -/
theorem c7_adjust_wrong_account :
    adjPayload.userId = 2
    ∧ adminUser.id = 1
    ∧ (adjust_loyalty_points dbLoyal adminUser adjPayload).2
        = .ok { userId := 1, points := 107, level := .silver }
    ∧ (adjust_loyalty_points dbLoyal adminUser adjPayload).1.loyaltyAccounts
        = [{ userId := 1, points := 107, level := .silver }, targetAccount] :=
  ⟨rfl, rfl, rfl, rfl⟩

/-- C8 counterexample: cancelling a Completed reservation sets its status
to Cancelled — Completed is not terminal under cancel. -/
theorem c8_counterexample :
    dbCompleted.reservations.map (fun r => r.status) = [.completed]
    ∧ ((delete_reservation dbCompleted beginnerUser 1).1.reservations.map
          (fun r => r.status)) = [.cancelled]
    ∧ (delete_reservation dbCompleted beginnerUser 1).2 = .ok () :=
  ⟨rfl, rfl, rfl⟩

/-- C9 counterexample: the interval 21:00 of day 0 to 00:00 of day 1 —
start time-of-day within operating hours, end exactly at midnight of the
following date — is rejected by validate_operating_hours with
ClubClosedError (the overnight check fires because the dates differ),
not accepted. -/
theorem c9_counterexample :
    validate_operating_hours 1260 1440 = .error .clubClosed
    ∧ CLUB_OPEN_TIME ≤ (1260 : Int) % 1440
    ∧ (1260 : Int) % 1440 < CLUB_CLOSE_TIME
    ∧ (1440 : Int) % 1440 = 0
    ∧ (1440 : Int) / 1440 = (1260 : Int) / 1440 + 1 :=
  ⟨rfl, by decide, by decide, by decide, by decide⟩

/-- C9 amended: for every interval whose start time-of-day is within
operating hours and whose end lands exactly at midnight of the following
calendar date, validate_operating_hours raises ClubClosedError: the
midnight exemption only bypasses the close-time check, and the
different-dates (overnight) check still rejects the interval. -/
theorem c9_midnight_end_rejected :
    ∀ (d st : Int), 480 ≤ st → st < 1320 →
      validate_operating_hours (1440 * d + st) (1440 * (d + 1))
        = .error .clubClosed := by
  intro d st h1 h2
  have hs : (1440 * d + st) % 1440 = st := by
    rw [add_comm, Int.add_mul_emod_self_left]
    exact Int.emod_eq_of_lt (by omega) (by omega)
  have he : (1440 * (d + 1)) % 1440 = 0 := Int.mul_emod_right 1440 (d + 1)
  have hsd : (1440 * d + st) / 1440 = d := by
    rw [add_comm, Int.add_mul_ediv_left st d (by norm_num : (1440 : Int) ≠ 0),
      Int.ediv_eq_zero_of_lt (by omega) (by omega), zero_add]
  have hed : (1440 * (d + 1)) / 1440 = d + 1 :=
    Int.mul_ediv_cancel_left (d + 1) (by norm_num)
  simp only [validate_operating_hours, CLUB_OPEN_TIME, CLUB_CLOSE_TIME,
    hs, he, hsd, hed]
  rw [if_neg (by omega), if_neg (by omega), if_neg (by norm_num),
    if_pos (by omega)]

/-- Witness for C9 amended: 08:20 of day 0 to midnight of day 1 is
rejected with ClubClosedError. -/
theorem c9_midnight_end_rejected_witness :
    validate_operating_hours (1440 * 0 + 500) (1440 * (0 + 1))
      = .error .clubClosed :=
  c9_midnight_end_rejected 0 500 (by decide) (by decide)

/-- Cancel either leaves the stored reservations untouched (error paths)
or maps the target id to a Cancelled copy. -/
theorem delete_reservations_eq (db : DB) (u : User) (rid : Int) :
    (delete_reservation db u rid).1.reservations = db.reservations
    ∨ (delete_reservation db u rid).1.reservations
        = db.reservations.map (fun r =>
            if r.id == rid then { r with status := ReservationStatus.cancelled }
            else r) := by
  unfold delete_reservation
  cases lookup_reservation db rid with
  | none => exact Or.inl rfl
  | some r0 =>
      by_cases hp : r0.userId ≠ u.id ∧ u.role ≠ Role.admin
      · exact Or.inl (by simp [hp])
      · exact Or.inr (by simp [hp])

/-- Awarding loyalty points never touches the stored reservations. -/
theorem update_user_loyalty_reservations (db : DB) (u : User) (d : Nat) :
    (update_user_loyalty db u d).reservations = db.reservations := by
  unfold update_user_loyalty
  cases u.loyalty <;> rfl

/-- Modify either leaves the stored reservations untouched (error paths)
or maps the target id to a copy whose status equals the found row's. -/
theorem modify_reservations_eq (now : Int) (db : DB) (u : User) (rid : Int)
    (upd : ReservationUpdate) :
    (modify_reservation now db u rid upd).1.reservations = db.reservations
    ∨ ∃ r0 r3, lookup_reservation db rid = some r0
        ∧ (modify_reservation now db u rid upd).1.reservations
            = db.reservations.map (fun r => if r.id == rid then r3 else r)
        ∧ r3.status = r0.status := by
  simp only [modify_reservation]
  cases hfind : lookup_reservation db rid with
  | none => exact Or.inl rfl
  | some r0 =>
      simp only [hfind]
      by_cases hp : r0.userId ≠ u.id ∧ u.role ≠ Role.admin
      · rw [if_pos hp]
        exact Or.inl rfl
      · rw [if_neg hp]
        cases hval : modify_revalidation now db r0 rid upd with
        | error err => exact Or.inl rfl
        | ok u2 =>
            simp only [hval]
            cases hcourt : lookup_court db (effective_court_number r0 upd) with
            | none => exact Or.inl rfl
            | some court =>
                simp only [hcourt]
                exact Or.inr ⟨r0, _, rfl, rfl, rfl⟩

/-- Creation either leaves the stored reservations untouched (error
paths) or appends the single new row. -/
theorem create_reservations_eq (now : Int) (db : DB) (u : User)
    (d : ReservationCreate) :
    (process_reservation_creation now db u d).1.reservations = db.reservations
    ∨ ∃ newRes, (process_reservation_creation now db u d).1.reservations
        = db.reservations ++ [newRes] := by
  simp only [process_reservation_creation]
  cases hc : lookup_court db d.courtNumber with
  | none => exact Or.inl rfl
  | some court =>
      simp only [hc]
      cases hv : validate_court_availability now db.reservations d.courtNumber
          d.startTime (calculate_end_time d.startTime d.durationMinutes) none with
      | error e => exact Or.inl rfl
      | ok u1 =>
          simp only [hv]
          cases hl : validate_lighting_requirements court d.startTime
              d.wantsLighting with
          | error e => exact Or.inl rfl
          | ok u2 =>
              simp only [hl]
              cases hs : validate_service db d.serviceId d.startTime
                  (calculate_end_time d.startTime d.durationMinutes) with
              | error e => exact Or.inl rfl
              | ok sv =>
                  simp only [hs]
                  exact Or.inr ⟨_, by rw [update_user_loyalty_reservations]⟩

/-- C8 amended: a Cancelled reservation is never transitioned to a
different status by any core operation (cancel re-sets Cancelled, modify
and creation preserve every stored status), in every store whose
reservation ids are unique as the primary key guarantees; Completed,
however, is not terminal: cancel sets a Completed reservation to
Cancelled (see the counterexample). -/
theorem c8_cancelled_terminal :
    ∀ (now : Int) (db : DB) (u : User) (rid : Int) (upd : ReservationUpdate)
      (d : ReservationCreate) (i : Nat) (r : Reservation),
      (db.reservations.map (fun x => x.id)).Nodup →
      db.reservations[i]? = some r → r.status = .cancelled →
      (∀ r', (delete_reservation db u rid).1.reservations[i]? = some r' →
          r'.status = .cancelled)
      ∧ (∀ r', (modify_reservation now db u rid upd).1.reservations[i]? = some r' →
          r'.status = .cancelled)
      ∧ (∀ r', (process_reservation_creation now db u d).1.reservations[i]? = some r' →
          r'.status = .cancelled) := by
  intro now db u rid upd d i r hnd hget hst
  refine ⟨?_, ?_, ?_⟩
  · intro r' hget'
    rcases delete_reservations_eq db u rid with heq | heq
    · rw [heq, hget] at hget'
      rw [← Option.some.inj hget']
      exact hst
    · rw [heq, List.getElem?_map, hget, Option.map_some'] at hget'
      rw [← Option.some.inj hget']
      by_cases hid : (r.id == rid) = true
      · simp only [hid, if_true]
      · simp only [hid, Bool.false_eq_true, if_false]
        exact hst
  · intro r' hget'
    rcases modify_reservations_eq now db u rid upd with heq | ⟨r0, r3, hfind, heq, hstat⟩
    · rw [heq, hget] at hget'
      rw [← Option.some.inj hget']
      exact hst
    · rw [heq, List.getElem?_map, hget, Option.map_some'] at hget'
      rw [← Option.some.inj hget']
      by_cases hid : (r.id == rid) = true
      · simp only [hid, if_true]
        have hr0mem : r0 ∈ db.reservations := List.mem_of_find?_eq_some hfind
        have hrmem : r ∈ db.reservations := List.getElem?_mem hget
        have hr0id : r0.id = rid := by
          have := List.find?_some hfind
          simpa using this
        have hrid : r.id = rid := by simpa using hid
        have : r0 = r :=
          List.inj_on_of_nodup_map hnd hr0mem hrmem (by rw [hr0id, hrid])
        rw [hstat, this, hst]
      · simp only [hid, Bool.false_eq_true, if_false]
        exact hst
  · intro r' hget'
    rcases create_reservations_eq now db u d with heq | ⟨newRes, heq⟩
    · rw [heq, hget] at hget'
      rw [← Option.some.inj hget']
      exact hst
    · have hlt : i < db.reservations.length := by
        rcases List.getElem?_eq_some.mp hget with ⟨hlt, _⟩
        exact hlt
      rw [heq, List.getElem?_append, if_pos hlt, hget] at hget'
      rw [← Option.some.inj hget']
      exact hst

/-- Witness for C8 amended: in the store with one Cancelled reservation,
cancelling it again leaves its status Cancelled. -/
theorem c8_cancelled_terminal_witness :
    resCancelledFx.status = ReservationStatus.cancelled
    ∧ (delete_reservation dbCancelled beginnerUser 1).1.reservations[0]?
        = some resCancelledFx := by
  have h := c8_cancelled_terminal 0 dbCancelled beginnerUser 1 updEmpty pastData 0
    resCancelledFx (by decide) rfl rfl
  exact ⟨h.1 resCancelledFx rfl, rfl⟩

/-- C10: every successful creation whose request asks for lighting
persists a row with wants_lighting = false (the flag is omitted from the
Reservation constructor and takes the model default), while the stored
total_price is the one computed from the request with the lighting
surcharge included; consequently re-pricing from the stored row (the
temp ReservationCreate that modify rebuilds) equals pricing the request
with the lighting flag cleared — the 10.00 fee is dropped. -/
theorem c10_lighting_flag_dropped :
    ∀ (now : Int) (db : DB) (user : User) (data : ReservationCreate)
      (r : Reservation),
      data.wantsLighting = true →
      (process_reservation_creation now db user data).2 = .ok r →
      r.wantsLighting = false
      ∧ (∀ c, lookup_court db data.courtNumber = some c →
          r.totalPrice = calculate_price c data user
          ∧ calculate_price c (reservation_to_create r) user
              = calculate_price c { data with wantsLighting := false } user) := by
  intro now db user data r hW h
  revert h
  simp only [process_reservation_creation]
  cases hc : lookup_court db data.courtNumber with
  | none => intro h; simp at h
  | some court =>
    simp only [hc]
    cases hv : validate_court_availability now db.reservations data.courtNumber
        data.startTime (calculate_end_time data.startTime data.durationMinutes)
        none with
    | error e => intro h; simp at h
    | ok u1 =>
      simp only [hv]
      cases hl : validate_lighting_requirements court data.startTime
          data.wantsLighting with
      | error e => intro h; simp at h
      | ok u2 =>
        simp only [hl]
        cases hs : validate_service db data.serviceId data.startTime
            (calculate_end_time data.startTime data.durationMinutes) with
        | error e => intro h; simp at h
        | ok sv =>
          simp only [hs]
          intro h
          simp only [Except.ok.injEq] at h
          subst h
          refine ⟨rfl, ?_⟩
          intro c hc2
          rw [← Option.some.inj hc2]
          exact ⟨rfl, rfl⟩

/-- Witness for C10: the lighting request at 19:00 on court 1 succeeds;
the stored row rLight carries wants_lighting = false and price 35.00
(25.00 base + 10.00 lighting), and re-pricing it gives 25.00. -/
theorem c10_lighting_flag_dropped_witness :
    lightData.wantsLighting = true
    ∧ (process_reservation_creation 0 dbCourtOnly beginnerUser lightData).2
        = .ok rLight
    ∧ rLight.wantsLighting = false
    ∧ rLight.totalPrice = calculate_price court25 lightData beginnerUser
    ∧ calculate_price court25 (reservation_to_create rLight) beginnerUser
        = calculate_price court25 { lightData with wantsLighting := false }
            beginnerUser
    ∧ rLight.totalPrice = 35
    ∧ calculate_price court25 (reservation_to_create rLight) beginnerUser = 25 := by
  have hprice : calculate_price court25 lightData beginnerUser = 35 := by
    norm_num [calculate_price, court25, lightData, beginnerUser,
      discount_for_level, roundHalfUp2]
  have hstep : (process_reservation_creation 0 dbCourtOnly beginnerUser lightData).2
      = .ok { rLight with
                totalPrice := calculate_price court25 lightData beginnerUser } := rfl
  have hrun : (process_reservation_creation 0 dbCourtOnly beginnerUser lightData).2
      = .ok rLight := by
    rw [hstep, hprice]
    rfl
  have h := c10_lighting_flag_dropped 0 dbCourtOnly beginnerUser lightData rLight
    rfl hrun
  refine ⟨rfl, hrun, h.1, (h.2 court25 rfl).1, (h.2 court25 rfl).2, ?_, ?_⟩
  · rw [(h.2 court25 rfl).1, hprice]
  · rw [(h.2 court25 rfl).2]
    norm_num [calculate_price, court25, lightData, beginnerUser,
      discount_for_level, roundHalfUp2]

end AceReserve

namespace AceReserve

/-- C1: for every court, reservation request (duration a multiple of 30 as
the request schema enforces) and requester, calculate_price returns the
hourly rate times duration/60 plus the extras 5.00 / 3.00 / 10.00, minus
the tier discount 0 / 0.05 / 0.10 / 0.15 (beginner when no loyalty
account), rounded half-up to two decimals; in particular rate 25.00,
60 minutes, no extras, beginner gives 25.00, and rate 25.00, 120 minutes,
all three extras, gold gives 61.20. -/
theorem c1_calculate_price :
    (∀ (court : Court) (data : ReservationCreate) (user : User),
        data.durationMinutes % 30 = 0 →
        calculate_price court data user = price_spec court data user)
    ∧ calculate_price court25 ex1Data beginnerUser = 25
    ∧ calculate_price court25 ex2Data goldUser = 306 / 5 := by
  refine ⟨fun court data user _ => ?_,
    by norm_num [calculate_price, court25, ex1Data, beginnerUser,
          discount_for_level, roundHalfUp2],
    by norm_num [calculate_price, court25, ex2Data, goldUser,
          discount_for_level, roundHalfUp2]⟩
  simp only [calculate_price, price_spec]
  cases hL : user.loyalty <;>
    cases hr : data.rentRacket <;>
      cases hb : data.rentBalls <;>
        cases hl : data.wantsLighting <;>
          · simp only [hL, hr, hb, hl, Bool.false_eq_true, if_true, if_false]
            congr 1
            ring

/-- Witness for C1: the universal clause applied at the concrete gold-tier
example request. -/
theorem c1_calculate_price_witness :
    calculate_price court25 ex2Data goldUser = price_spec court25 ex2Data goldUser :=
  c1_calculate_price.1 court25 ex2Data goldUser (by decide)

/-- C3: every point adjustment sets the balance to max(B + delta, 0) and
recomputes the tier from the new balance with the thresholds 300/150/50,
so the stored tier always matches the balance. -/
theorem c3_update_loyalty_level :
    ∀ (account : LoyaltyAccount) (delta : Int), 0 ≤ account.points →
      (update_loyalty_level account delta).points = max (account.points + delta) 0
      ∧ (update_loyalty_level account delta).level
          = tier_for (update_loyalty_level account delta).points := by
  intro account delta _
  constructor
  · rfl
  · simp only [update_loyalty_level, tier_for]

/-- Witness for C3: the three example adjustments of the claim, with the
theorem applied at balance 40, delta +10. -/
theorem c3_update_loyalty_level_witness :
    ((update_loyalty_level ⟨1, 40, .beginner⟩ 10).points = max ((40 : Int) + 10) 0
      ∧ (update_loyalty_level ⟨1, 40, .beginner⟩ 10).level
          = tier_for (update_loyalty_level ⟨1, 40, .beginner⟩ 10).points)
    ∧ (update_loyalty_level ⟨1, 40, .beginner⟩ 10).points = 50
    ∧ (update_loyalty_level ⟨1, 40, .beginner⟩ 10).level = .silver
    ∧ (update_loyalty_level ⟨2, 140, .beginner⟩ 10).points = 150
    ∧ (update_loyalty_level ⟨2, 140, .beginner⟩ 10).level = .gold
    ∧ (update_loyalty_level ⟨3, 290, .beginner⟩ 10).points = 300
    ∧ (update_loyalty_level ⟨3, 290, .beginner⟩ 10).level = .platinum :=
  ⟨c3_update_loyalty_level ⟨1, 40, .beginner⟩ 10 (by decide), by decide⟩

end AceReserve
